import Mathlib

/-!
Shallow embedding of `src/ragas/metrics/_faithfulness.py` (the `Faithfulness`
metric of the ragas repository), and theorems checking the specification's
claims about it.

Modelling conventions:
* Machine text is `String`; Python `str.__contains__` / `str.find(...) > -1`
  are both substring containment, embedded as `strContains`.
* The LLM client (`self.llm.generate`) is an external collaborator; it is a
  parameter `llm : List String -> List String` mapping the list of rendered
  prompts to the list of primary completion texts (`output[0].text` of each
  generation).  A fallible client is a parameter returning `Except Unit _`,
  and `score_batchE` embeds Python exception propagation (the source has no
  try/except around the `generate` calls).
* `json_loader.safe_load(text, llm).get("statements", [])` lives outside this
  file's source; only its observable outcome decides any claim, so it is a
  parameter `parse : String -> Option (List String)`: `none` models "parse
  failed / no statements key" (the `.get` default applies, giving `[]`), and
  `some l` models a parsed `statements` list `l`.
* Scores are `JScore`: `JScore.num q` a number, `JScore.nan` the `np.nan`
  sentinel.
-/

/-- Substring containment: Python `pat in s` and `s.find(pat) > -1`. -/
def strContains (s pat : String) : Bool :=
  decide (pat.data <:+: s.data)

/-- Python `str.lower()`, character by character (every token the code looks
up is ASCII, where `Char.toLower` and Python agree). -/
def strLower (s : String) : String :=
  ⟨s.data.map Char.toLower⟩

/-- A Python float that is either a real number or `np.nan`. -/
inductive JScore where
  | num (v : Rat)
  | nan
deriving DecidableEq

def LFA_TEMPLATE_HEAD : String :=
  "Create one or more statements from each sentence in the given answer.\n\nquestion: Who was  Albert Einstein and what is he best known for?\nanswer: He was a German-born theoretical physicist, widely acknowledged to be one of the greatest and most influential physicists of all time. He was best known for developing the theory of relativity, he also made important contributions to the development of the theory of quantum mechanics.\nstatements in json:\n\x7b\n    \"statements\": [\n        \"Albert Einstein was born in Germany.\",\n        \"Albert Einstein was best known for his theory of relativity.\"\n    ]\n\x7d\n\nquestion: Cadmium Chloride is slightly soluble in this chemical, it is also called what?\nanswer: alcohol\nstatements in json:\n\x7b\n    \"statements\": [\n        \"Cadmium Chloride is slightly soluble in alcohol.\"\n    ]\n\x7d\n\nquestion: Were Hitler and Benito Mussolini of the same nationality?\nanswer: Sorry, I can\x27t provide answer to that question.\nstatements in json:\n\x7b\n    \"statements\": []\n\x7d\n\nquestion:"

def LFA_TEMPLATE_ANSWER : String :=
  "\nanswer: "

def LFA_TEMPLATE_TAIL : String :=
  "\nstatements in json:"

def NLI_TEMPLATE_HEAD : String :=
  "\n Natural language inference. Only use \"Yes\" or \"No\" as verdict.\n\nContext:\nJohn is a student at XYZ University. He is pursuing a degree in Computer Science. He is enrolled in several courses this semester, including Data Structures, Algorithms, and Database Management. John is a diligent student and spends a significant amount of time studying and completing assignments. He often stays late in the library to work on his projects.\nstatement_1: John is majoring in Biology.\nstatement_2: John is taking a course on Artificial Intelligence. \nstatement_3: John is a dedicated student. \nstatement_4: John has a part-time job.\nAnswer:\n[\n    \x7b\n        \"statement_1\": \"John is majoring in Biology.\",\n        \"reason\": \"John\x27s major is explicitly mentioned as Computer Science. There is no information suggesting he is majoring in Biology.\",\n        \"verdict\": \"No\"\n    \x7d,\n    \x7b\n        \"statement_2\": \"John is taking a course on Artificial Intelligence.\",\n        \"reason\": \"The context mentions the courses John is currently enrolled in, and Artificial Intelligence is not mentioned. Therefore, it cannot be deduced that John is taking a course on AI.\",\n        \"verdict\": \"No\"\n    \x7d,\n    \x7b\n        \"statement_3\": \"John is a dedicated student.\",\n        \"reason\": \"The context states that he spends a significant amount of time studying and completing assignments. Additionally, it mentions that he often stays late in the library to work on his projects, which implies dedication.\",\n        \"verdict\": \"Yes\"\n    \x7d,\n    \x7b\n        \"statement_4\": \"John has a part-time job.\",\n        \"reason\": \"There is no information given in the context about John having a part-time job.\",\n        \"verdict\": \"No\"\n    \x7d\n]\n\nContext:\nPhotosynthesis is a process used by plants, algae, and certain bacteria to convert light energy into chemical energy.\nstatement_1: Albert Einstein was a genius.\nAnswer:\n[\n     \x7b\n        \"statement_1\": \"Albert Einstein was a genius.\",\n        \"reason\": \"The context and statement are unrelated\"\n        \"verdict\": \"No\"\n    \x7d\n]\n\nContext:\nAlbert Einstein was a German-born theoretical physicist who is widely held to be one of the greatest and most influential scientists of all time.\nstatement_1: Nil\nAnswer:\n[\n     \x7b\n        \"statement_1\": \"Nil\",\n        \"reason\": \"The statement is invalid\",\n        \"verdict\": \"No\"\n    \x7d\n]\n\n\ncontext:\n"

def NLI_TEMPLATE_STATEMENTS : String :=
  "\nstatements:\n"

def NLI_TEMPLATE_TAIL : String :=
  "\nAnswer:\n"


/-- Rendered output of `LONG_FORM_ANSWER_PROMPT.format(question=q, answer=a)`
(the statement-extraction prompt), with the template's `\x7b\x7b`/`\x7d\x7d`
brace escapes already rendered to single braces as Python `format` does. -/
def LONG_FORM_ANSWER_PROMPT_format (question answer : String) : String :=
  LFA_TEMPLATE_HEAD ++ question ++ LFA_TEMPLATE_ANSWER ++ answer ++ LFA_TEMPLATE_TAIL

/-- The numbered statement lines
`[f"statement_{i+1}: {st}" for i, st in enumerate(statements)]`. -/
def statementLines (statements : List String) : List String :=
  statements.enum.map (fun p => "statement_" ++ toString (p.1 + 1) ++ ": " ++ p.2)

/-- Rendered output of `NLI_STATEMENTS_MESSAGE.format(context=..., statements=...)`:
the stage-2 NLI prompt, with `contexts_str = "\n".join(context)` and
`statements_str = "\n".join(statementLines statements)` interpolated. -/
def NLI_STATEMENTS_MESSAGE_format (context : List String) (statements : List String) : String :=
  NLI_TEMPLATE_HEAD ++ String.intercalate "\n" context ++ NLI_TEMPLATE_STATEMENTS
    ++ String.intercalate "\n" (statementLines statements) ++ NLI_TEMPLATE_TAIL

/-- `statements = safe_load(...).get("statements", []); statements if statements != [] else ["Nil"]`:
the parsed statement list with the `"Nil"` sentinel substituted when it is
empty (also when the key is absent or parsing failed, i.e. `parsed = none`). -/
def extractStatements (parsed : Option (List String)) : List String :=
  let statements := parsed.getD []
  if statements = [] then ["Nil"] else statements

/-- The first loop of `_score_batch`: one stage-1 prompt per `(q, a)` pair of
`zip(question, answer)`. -/
def stage1Prompts (question answer : List String) : List String :=
  (question.zip answer).map (fun qa => LONG_FORM_ANSWER_PROMPT_format qa.1 qa.2)

/-- The second loop of `_score_batch`: one stage-2 prompt per
`(context, output)` pair of `zip(contexts, result.generations)`, parsing each
stage-1 output and substituting the sentinel. -/
def stage2Prompts (parse : String -> Option (List String))
    (contexts : List (List String)) (gens : List String) : List String :=
  (contexts.zip gens).map
    (fun cg => NLI_STATEMENTS_MESSAGE_format cg.1 (extractStatements (parse cg.2)))

/-- The dict `verdict_score_map = {"yes": 1, "no": 0, "null": np.nan}`. -/
def verdict_score_map (s : String) : Option JScore :=
  if s = "yes" then some (JScore.num 1)
  else if s = "no" then some (JScore.num 0)
  else if s = "null" then some JScore.nan
  else none

/-- The lookup idiom `verdict_score_map.get(dict.get("verdict", "").lower(), np.nan)`:
`token = none` models a record with no `"verdict"` key (the `.get` default
`""` applies). -/
def verdictLookup (token : Option String) : JScore :=
  (verdict_score_map (strLower (token.getD ""))).getD JScore.nan

/-- The substring `'"verdict": "Yes'` tested by `output[0].text.find(...) > -1`. -/
def yesVerdictPat : String := "\"verdict\": \"Yes"

/-- Model of the structured-aggregation branch guarded by
`if False and output[0].text.findpat > -1:` in `_score_batch`.  The branch is
unreachable (see `dead_branch_unreachable_and_substring_scoring`); its Python
body would moreover crash if it ever ran (it calls `.get` on generation
objects, and `score` can be referenced unbound), so its value is modelled as
the `np.nan` placeholder.  No theorem depends on this value: the guard is the
literal `false`. -/
def deadStructuredScore (_text : String) : JScore := JScore.nan

/-- The body of the scoring loop `for output in outputs:` of `_score_batch`,
scoring one stage-2 completion text:
`if False and text.find pat > -1: ... else: is_true = 'statement is true' in text or text.find pat > -1; score = 1 if is_true else 0`. -/
def scoreOne (text : String) : JScore :=
  if false && strContains text yesVerdictPat then
    deadStructuredScore text
  else
    let is_true := strContains text "statement is true" || strContains text yesVerdictPat
    if is_true then JScore.num 1 else JScore.num 0

/-- `Faithfulness._score_batch` with a total (never-raising) LLM client:
stage-1 prompts, first `generate`, stage-2 prompts, second `generate`, then
the scoring loop, returning the score list in loop order. -/
def score_batch (parse : String -> Option (List String))
    (llm : List String -> List String)
    (question answer : List String) (contexts : List (List String)) : List JScore :=
  let gens1 := llm (stage1Prompts question answer)
  let gens2 := llm (stage2Prompts parse contexts gens1)
  gens2.map scoreOne

/-- `Faithfulness._score_batch` with a fallible LLM client: the source wraps
neither `generate` call in try/except, so a client exception propagates and
aborts the whole batch; `Except` threading embeds that propagation. -/
def score_batchE (parse : String -> Option (List String))
    (llm : List String -> Except Unit (List String))
    (question answer : List String) (contexts : List (List String)) :
    Except Unit (List JScore) := do
  let gens1 <- llm (stage1Prompts question answer)
  let gens2 <- llm (stage2Prompts parse contexts gens1)
  pure (gens2.map scoreOne)

/-- The end-to-end score of the sample `(q, a, c)` under a per-prompt
deterministic client `g` (one completion per prompt, in order). -/
def scoreSample (parse : String -> Option (List String)) (g : String -> String)
    (q a : String) (c : List String) : JScore :=
  scoreOne (g (NLI_STATEMENTS_MESSAGE_format c
    (extractStatements (parse (g (LONG_FORM_ANSWER_PROMPT_format q a))))))

/-! ## Helper lemmas and concrete clients used by witnesses and counterexamples -/

theorem scoreOne_eq (t : String) :
    scoreOne t =
      if strContains t "statement is true" || strContains t yesVerdictPat
      then JScore.num 1 else JScore.num 0 := rfl

theorem scoreOne_zero_or_one (t : String) :
    scoreOne t = JScore.num 0 ∨ scoreOne t = JScore.num 1 := by
  rw [scoreOne_eq]
  by_cases h : (strContains t "statement is true" || strContains t yesVerdictPat) = true
  · right; simp [h]
  · left; simp [h]

/-- A concrete stage-1 parse outcome: two statements extracted. -/
def parseTwo : String -> Option (List String) := fun _ => some ["s one", "s two"]

/-- A concrete stage-2 completion carrying one `Yes` verdict and one `No`
verdict, in the output format the NLI few-shot prompt requests. -/
def yesNoReply : String :=
  "[\n \x7b\"statement_1\": \"s one\", \"reason\": \"entailed\", \"verdict\": \"Yes\"\x7d,\n \x7b\"statement_2\": \"s two\", \"reason\": \"contradicted\", \"verdict\": \"No\"\x7d\n]"

/-- A deterministic client answering every prompt with `yesNoReply`. -/
def llmYesNo : List String -> List String := fun ps => ps.map (fun _ => yesNoReply)

/-- The same client as a per-prompt function. -/
def gYesNo : String -> String := fun _ => yesNoReply

/-- A client whose call raises (models a timeout / API failure). -/
def llmFail : List String -> Except Unit (List String) := fun _ => Except.error ()

/-! ## Claims -/

/-- C2: the structured, verdict-list-based aggregation branch of the scoring
loop is guarded by `False and ...`, hence permanently unreachable; for every
stage-2 completion text the executed path scores 1 exactly when the text
contains `'statement is true'` or the substring `'"verdict": "Yes'`, and 0
otherwise. -/
theorem dead_branch_unreachable_and_substring_scoring :
    (forall text : String, (false && strContains text yesVerdictPat) = false) /\
    (forall text : String,
      scoreOne text =
        if strContains text "statement is true" || strContains text yesVerdictPat
        then JScore.num 1 else JScore.num 0) := by
  constructor
  · intro text; rfl
  · intro text; rfl

/-- C4: a stage-1 parse outcome with an empty `statements` list, or with no
`statements` key at all (`parsed = none`, the `.get` default `[]` applies),
is replaced by the single sentinel statement list `["Nil"]` before the
stage-2 prompt is built. -/
theorem nil_sentinel_substitution (p : Option (List String))
    (h : p = none \/ p = some []) : extractStatements p = ["Nil"] := by
  rcases h with h | h <;> subst h <;> rfl

theorem nil_sentinel_substitution_witness :
    extractStatements none = ["Nil"] /\ extractStatements (some []) = ["Nil"] :=
  ⟨nil_sentinel_substitution none (Or.inl rfl),
   nil_sentinel_substitution (some []) (Or.inr rfl)⟩

/-- C5: for a stage-1 result with `N >= 1` statements, the numbered statement
block of the stage-2 prompt has exactly `N` lines, and line `i` (0-based) is
`statement_{i+1}: ` followed by the `i`-th statement, in input order. -/
theorem stage2_prompt_enumerates_statements (statements : List String)
    (_hN : 1 <= statements.length) :
    (statementLines statements).length = statements.length /\
    (forall (i : Nat) (s : String), statements[i]? = some s ->
      (statementLines statements)[i]? =
        some ("statement_" ++ toString (i + 1) ++ ": " ++ s)) := by
  refine ⟨by simp [statementLines], ?_⟩
  intro i s hs
  simp [statementLines, List.getElem?_map, List.getElem?_enum, hs]

theorem stage2_prompt_enumerates_statements_witness :
    1 <= (["alpha", "beta"] : List String).length /\
    (statementLines ["alpha", "beta"])[1]? =
      some ("statement_" ++ toString (1 + 1) ++ ": " ++ "beta") :=
  ⟨by decide,
   (stage2_prompt_enumerates_statements ["alpha", "beta"] (by decide)).2 1 "beta" (by decide)⟩

/-- C6: the verdict label mapping lower-cases the LLM-provided token and maps
`"yes"` to the yes score 1, `"no"` to the no score 0, and everything else —
a missing `verdict` key, the explicit `"null"` entry, or any unrecognized
token — to the indeterminate `np.nan`; concrete cases `"Yes"`, `"NO"`,
`"null"`, `"perhaps"` illustrate the case-insensitivity and the default. -/
theorem verdict_label_mapping :
    (forall s : String, verdictLookup (some s) =
      if strLower s = "yes" then JScore.num 1
      else if strLower s = "no" then JScore.num 0
      else JScore.nan) /\
    verdictLookup none = JScore.nan /\
    verdictLookup (some "Yes") = JScore.num 1 /\
    verdictLookup (some "NO") = JScore.num 0 /\
    verdictLookup (some "null") = JScore.nan /\
    verdictLookup (some "perhaps") = JScore.nan := by
  refine ⟨?_, by decide, by decide, by decide, by decide, by decide⟩
  intro s
  by_cases h1 : strLower s = "yes"
  · simp [verdictLookup, verdict_score_map, h1]
  · by_cases h2 : strLower s = "no"
    · simp [verdictLookup, verdict_score_map, h1, h2]
    · by_cases h3 : strLower s = "null"
      · simp [verdictLookup, verdict_score_map, h1, h2, h3]
      · simp [verdictLookup, verdict_score_map, h1, h2, h3]

/-- C10: every score the batch scorer actually returns is exactly 0 or
exactly 1: the `np.nan` sentinel and fractional values such as 0.5 are never
produced at the public output. -/
theorem scores_exactly_zero_or_one
    (parse : String -> Option (List String)) (llm : List String -> List String)
    (question answer : List String) (contexts : List (List String)) (s : JScore)
    (hs : s ∈ score_batch parse llm question answer contexts) :
    s = JScore.num 0 \/ s = JScore.num 1 := by
  simp only [score_batch, List.mem_map] at hs
  rcases hs with ⟨t, _, rfl⟩
  exact scoreOne_zero_or_one t

set_option maxRecDepth 8000 in
theorem scores_exactly_zero_or_one_witness :
    JScore.num 1 = JScore.num 0 \/ JScore.num 1 = JScore.num 1 :=
  scores_exactly_zero_or_one parseTwo llmYesNo ["q"] ["a"] [["c"]]
    (JScore.num 1) (by decide)

set_option maxRecDepth 8000 in
/-- C1, counterexample: a sample whose answer yields 2 submitted statements
(`parseTwo`) and whose stage-2 completion `yesNoReply` carries exactly one
`Yes` and one `No` verdict.  The claim's policy `count(yes)/total_statements`
says the score is `1/2`; the code returns 1, because the executed path only
checks whether the raw text contains a `Yes`-verdict substring. -/
theorem yes_fraction_counterexample :
    (extractStatements (parseTwo "any stage-1 text")).length = 2 /\
    strContains yesNoReply yesVerdictPat = true /\
    strContains yesNoReply "\"verdict\": \"No" = true /\
    score_batch parseTwo llmYesNo ["q"] ["a"] [["c"]] = [JScore.num 1] /\
    JScore.num 1 ≠ JScore.num (1 / 2) := by
  refine ⟨by decide, by decide, by decide, by decide, ?_⟩
  simp only [ne_eq, JScore.num.injEq]
  norm_num

/-- C1 as amended: the aggregated score is not the fraction of yes verdicts;
for every stage-2 completion text it is 1 exactly when the text contains
`'statement is true'` or the substring `'"verdict": "Yes'` and 0 exactly
otherwise, so the two-statement one-yes-one-no sample of the counterexample
receives 1, not 0.5. -/
theorem score_is_substring_check_not_fraction (text : String) :
    (scoreOne text = JScore.num 1 <->
      (strContains text "statement is true" || strContains text yesVerdictPat) = true) /\
    (scoreOne text = JScore.num 0 <->
      (strContains text "statement is true" || strContains text yesVerdictPat) = false) := by
  rw [scoreOne_eq]
  by_cases h : (strContains text "statement is true" || strContains text yesVerdictPat) = true
  · rw [if_pos h]
    constructor
    · exact ⟨fun _ => h, fun _ => rfl⟩
    · constructor
      · intro habs
        exact absurd (congrArg (fun j => j = JScore.num 0) habs) (by simp)
      · intro hf
        rw [h] at hf
        exact absurd hf (by simp)
  · rw [if_neg h]
    constructor
    · constructor
      · intro habs
        exact absurd habs (by simp)
      · intro ht
        exact absurd ht h
    · exact ⟨fun _ => Bool.not_eq_true _ |>.mp h, fun _ => rfl⟩

/-- C3: every sample entering stage 2 has at least one submitted statement
(the sentinel substitution guarantees `total_statements >= 1`), and every
score the batch scorer returns is a number in the closed interval `[0, 1]` —
never negative, never above 1.  The "zero submitted statements" case of the
claim is unreachable, so its sentinel clause holds vacuously. -/
theorem score_bounds :
    (forall p : Option (List String), 1 <= (extractStatements p).length) /\
    (forall (parse : String -> Option (List String)) (llm : List String -> List String)
      (question answer : List String) (contexts : List (List String)) (s : JScore),
      s ∈ score_batch parse llm question answer contexts ->
      ∃ v : Rat, s = JScore.num v /\ 0 <= v /\ v <= 1) := by
  constructor
  · intro p
    rcases p with _ | l
    · decide
    · rcases l with _ | ⟨x, xs⟩
      · decide
      · simp [extractStatements]
  · intro parse llm question answer contexts s hs
    simp only [score_batch, List.mem_map] at hs
    rcases hs with ⟨t, _, rfl⟩
    rcases scoreOne_zero_or_one t with h | h
    · exact ⟨0, h, by norm_num⟩
    · exact ⟨1, h, by norm_num⟩

set_option maxRecDepth 8000 in
theorem score_bounds_witness :
    1 <= (extractStatements none).length /\
    ∃ v : Rat, JScore.num 1 = JScore.num v /\ 0 <= v /\ v <= 1 :=
  ⟨score_bounds.1 none,
   score_bounds.2 parseTwo llmYesNo ["q"] ["a"] [["c"]] (JScore.num 1) (by decide)⟩

/-- C8, counterexample: a group of two samples whose client call raises.  The
claim says the failing sample's score becomes the undefined sentinel while
the sibling sample is still processed and scored; instead the exception
propagates out of `_score_batch` and the whole batch aborts with no score
list at all. -/
theorem client_failure_aborts_batch_counterexample :
    score_batchE parseTwo llmFail ["q1", "q2"] ["a1", "a2"] [["c1"], ["c2"]] =
      Except.error () := rfl

/-- C8 as amended: a client failure in either `generate` call is not isolated
to one sample: it aborts the entire batch, which returns the propagated error
and assigns no score (neither a number nor the undefined sentinel) to any
sample of the group. -/
theorem client_failure_aborts_batch
    (parse : String -> Option (List String))
    (llm : List String -> Except Unit (List String))
    (question answer : List String) (contexts : List (List String)) (e : Unit)
    (h : llm (stage1Prompts question answer) = Except.error e \/
      ∃ gens1, llm (stage1Prompts question answer) = Except.ok gens1 /\
        llm (stage2Prompts parse contexts gens1) = Except.error e) :
    score_batchE parse llm question answer contexts = Except.error e := by
  rcases h with h | ⟨gens1, h1, h2⟩
  · unfold score_batchE
    rw [h]
    rfl
  · unfold score_batchE
    rw [h1]
    show List.map scoreOne <$> llm (stage2Prompts parse contexts gens1) = Except.error e
    rw [h2]
    rfl

theorem client_failure_aborts_batch_witness :
    score_batchE parseTwo llmFail ["q0"] ["a0"] [["c0"]] = Except.error () :=
  client_failure_aborts_batch parseTwo llmFail ["q0"] ["a0"] [["c0"]] ()
    (Or.inl rfl)

/-- C9: the pipeline is deterministic in its inputs: two runs over the same
sample collection with clients (and stage-1 parsers) that agree pointwise
produce identical score lists — there is no hidden state. -/
theorem deterministic_rerun
    (parseA parseB : String -> Option (List String))
    (llmA llmB : List String -> List String)
    (question answer : List String) (contexts : List (List String))
    (hp : forall t, parseA t = parseB t)
    (hl : forall ps, llmA ps = llmB ps) :
    score_batch parseA llmA question answer contexts =
      score_batch parseB llmB question answer contexts := by
  simp only [score_batch]
  simp only [hl]
  have h2 : stage2Prompts parseA contexts (llmB (stage1Prompts question answer)) =
      stage2Prompts parseB contexts (llmB (stage1Prompts question answer)) := by
    unfold stage2Prompts
    exact List.map_congr_left (fun cg _ => by rw [hp])
  rw [h2]

theorem deterministic_rerun_witness :
    score_batch parseTwo llmYesNo ["q"] ["a"] [["c"]] =
      score_batch parseTwo llmYesNo ["q"] ["a"] [["c"]] :=
  deterministic_rerun parseTwo parseTwo llmYesNo llmYesNo ["q"] ["a"] [["c"]]
    (fun _ => rfl) (fun _ => rfl)

/-- C7: with a client that returns one completion per prompt in order, the
batch scorer returns exactly one score per input sample, and the output is
order-aligned with the input: the whole output is the per-sample scoring
function mapped over the zipped sample collection, and the score at position
`i` is the score of the sample at position `i`. -/
theorem one_score_per_sample_in_order
    (parse : String -> Option (List String)) (g : String -> String)
    (question answer : List String) (contexts : List (List String))
    (hqa : question.length = answer.length)
    (hac : answer.length = contexts.length) :
    (score_batch parse (fun ps => ps.map g) question answer contexts).length = question.length /\
    score_batch parse (fun ps => ps.map g) question answer contexts =
      (contexts.zip (question.zip answer)).map
        (fun x => scoreSample parse g x.2.1 x.2.2 x.1) /\
    (forall (i : Nat) (q a : String) (c : List String),
      question[i]? = some q -> answer[i]? = some a -> contexts[i]? = some c ->
      (score_batch parse (fun ps => ps.map g) question answer contexts)[i]? =
        some (scoreSample parse g q a c)) := by
  have key : score_batch parse (fun ps => ps.map g) question answer contexts =
      (contexts.zip (question.zip answer)).map
        (fun x => scoreSample parse g x.2.1 x.2.2 x.1) := by
    simp only [score_batch, stage1Prompts, stage2Prompts, List.map_map, List.zip_map_right]
    apply List.map_congr_left
    rintro ⟨c, q, a⟩ _
    rfl
  refine ⟨?_, key, ?_⟩
  · rw [key, List.length_map, List.length_zip, List.length_zip, hqa, min_self, hac, min_self]
  · intro i q a c hq ha hc
    rcases List.getElem?_eq_some.mp hq with ⟨hiq, hq2⟩
    rcases List.getElem?_eq_some.mp ha with ⟨hia, ha2⟩
    rcases List.getElem?_eq_some.mp hc with ⟨hic, hc2⟩
    have hzz : i < (contexts.zip (question.zip answer)).length := by
      rw [List.length_zip, List.length_zip]
      exact lt_min hic (lt_min hiq hia)
    rw [key, List.getElem?_map, List.getElem?_eq_getElem hzz]
    simp [List.getElem_zip, hq2, ha2, hc2]

theorem one_score_per_sample_in_order_witness :
    (score_batch parseTwo (fun ps => ps.map gYesNo)
        ["q1", "q2"] ["a1", "a2"] [["c1"], ["c2"]]).length = 2 /\
    (score_batch parseTwo (fun ps => ps.map gYesNo)
        ["q1", "q2"] ["a1", "a2"] [["c1"], ["c2"]])[1]? =
      some (scoreSample parseTwo gYesNo "q2" "a2" ["c2"]) :=
  ⟨(one_score_per_sample_in_order parseTwo gYesNo ["q1", "q2"] ["a1", "a2"]
      [["c1"], ["c2"]] rfl rfl).1,
   (one_score_per_sample_in_order parseTwo gYesNo ["q1", "q2"] ["a1", "a2"]
      [["c1"], ["c2"]] rfl rfl).2.2 1 "q2" "a2" ["c2"] rfl rfl rfl⟩
